import Mathlib

/-!
Formal model of the event-filtering core of the Django-Code repository
(`src/filters.py`, `src/views.py`): the `EventFilter` predicate builders
(price, when, radius, curation), the `EventViewSet` curated-city policy and
search chain, and the `NativeCache` read path.

Querysets are modelled as lists of rows; ORM `filter`/`exclude` become
`List.filter`; `Q(..) | Q(..)` becomes boolean disjunction of row
predicates.  External collaborators (the geospatial distance function,
the timezone utilities of `core.utils`, the Postgres full-text and trigram
oracles, the staleness TTL predicate) are injected as explicit parameters,
exactly as the spec declares them external.  Machine times are modelled as
`Int` seconds; geographic points as pairs of rationals.
-/

/-- Geographic point (x = longitude, y = latitude), as in `django.contrib.gis`. -/
abbrev GeoPt := ℚ × ℚ

/-- The six price tiers of `EventFilter.PRICE_CHOICES` (`src/filters.py`). -/
inductive PriceTier where
  | free
  | price_10
  | price_25
  | price_50
  | price_100
  | price_100_plus
deriving DecidableEq, Repr, Fintype

/-- Position of a tier in the `PRICE_CHOICES` order (used to state
"strictly below the requested tier"). -/
def tierIdx : PriceTier → Nat
  | .free => 0
  | .price_10 => 1
  | .price_25 => 2
  | .price_50 => 3
  | .price_100 => 4
  | .price_100_plus => 5

/-- The nine `when` tokens of `EventFilter.WHEN_CHOICES` (`src/filters.py`). -/
inductive WhenToken where
  | now
  | today
  | tomorrow
  | weekend
  | nextWeek
  | nextWeekend
  | thisWeek
  | happeningLater
  | past
deriving DecidableEq, Repr, Fintype

/-- The ten radius tokens of `EventFilter.RADIUS_CHOICES` (`src/filters.py`). -/
inductive RadiusToken where
  | mile5
  | mile25
  | mile50
  | mile100
  | mile100plus
  | mile150
  | mile200
  | mile250
  | mile300
  | mile350
deriving DecidableEq, Repr, Fintype

/-- Position of a radius token in the `RADIUS_CHOICES` order. -/
def radiusIdx : RadiusToken → Nat
  | .mile5 => 0
  | .mile25 => 1
  | .mile50 => 2
  | .mile100 => 3
  | .mile100plus => 4
  | .mile150 => 5
  | .mile200 => 6
  | .mile250 => 7
  | .mile300 => 8
  | .mile350 => 9

/-- Mile bound of a radius token, from the `elif` chain of
`EventFilter.filter_radius` (`src/filters.py` lines 503-523).  Note the
source maps both `mile-150` and `mile-100-plus` to 150 miles (the
"TODO #2208" alias). -/
def radiusMiles : RadiusToken → ℚ
  | .mile5 => 5
  | .mile25 => 25
  | .mile50 => 50
  | .mile100 => 100
  | .mile100plus => 150
  | .mile150 => 150
  | .mile200 => 200
  | .mile250 => 250
  | .mile300 => 300
  | .mile350 => 350

/-- An `Event` row, restricted to the columns the modelled filters read.
`start_date`/`end_date` are absolute timestamps in seconds; `point` is the
nullable geographic column; `locationCityIds` holds the city ids reachable
through `locations__city`; `prices_available` is the price-tag array. -/
structure Event where
  id : Nat
  name : String
  description : String
  start_date : Int
  end_date : Int
  is_featured : Bool
  is_staff_picked : Bool
  has_location : Bool
  prices_available : List PriceTier
  point : Option GeoPt
  locationCityIds : List Nat
deriving DecidableEq, Repr

/-- A `City` row, restricted to the columns the modelled code reads. -/
structure City where
  id : Nat
  slug : String
  point : GeoPt
  is_curated : Bool
deriving DecidableEq, Repr

/-- `City.objects.get(slug=...)`: the unique row with the given slug
(slugs are unique per the data model; on a list table we take the first
match, `none` modelling `City.DoesNotExist`). -/
def lookupCity (cities : List City) (slug : String) : Option City :=
  cities.find? (fun c => c.slug == slug)

/-- `EventFilter.filter_price` (`src/filters.py` lines 307-308):
`queryset.filter(prices_available__contains=[value])`. -/
def filter_price (value : PriceTier) (queryset : List Event) : List Event :=
  queryset.filter (fun e => value ∈ e.prices_available)

/-- `EventFilter.filter_price_sections` (`src/filters.py` lines 310-343):
containment filter followed by the per-tier `exclude` chain over every
strictly lower tier. -/
def filter_price_sections (value : PriceTier) (queryset : List Event) : List Event :=
  let queryset := queryset.filter (fun e => value ∈ e.prices_available)
  if value = PriceTier.price_10 then
    queryset.filter (fun e => ¬ (PriceTier.free ∈ e.prices_available))
  else if value = PriceTier.price_25 then
    queryset.filter (fun e =>
      ¬ (PriceTier.free ∈ e.prices_available ∨
         PriceTier.price_10 ∈ e.prices_available))
  else if value = PriceTier.price_50 then
    queryset.filter (fun e =>
      ¬ (PriceTier.free ∈ e.prices_available ∨
         PriceTier.price_10 ∈ e.prices_available ∨
         PriceTier.price_25 ∈ e.prices_available))
  else if value = PriceTier.price_100 then
    queryset.filter (fun e =>
      ¬ (PriceTier.free ∈ e.prices_available ∨
         PriceTier.price_10 ∈ e.prices_available ∨
         PriceTier.price_25 ∈ e.prices_available ∨
         PriceTier.price_50 ∈ e.prices_available))
  else if value = PriceTier.price_100_plus then
    queryset.filter (fun e =>
      ¬ (PriceTier.free ∈ e.prices_available ∨
         PriceTier.price_10 ∈ e.prices_available ∨
         PriceTier.price_25 ∈ e.prices_available ∨
         PriceTier.price_50 ∈ e.prices_available ∨
         PriceTier.price_100 ∈ e.prices_available))
  else
    queryset

/-- `EventFilter.filter_has_location` (`src/filters.py` lines 286-305).
The method serves both the `is_curated` and the `has_location` filter
parameters (dispatch on `name`); note the early return when
`name == 'is_curated'` and the value is false, and that the trailing
`has_location=Event.YES` filter also runs for `is_curated=true`. -/
def filter_has_location (name : String) (value : Bool) (queryset : List Event) :
    List Event :=
  let qs := queryset
  let qs :=
    if name = "is_curated" then
      if value then
        qs.filter (fun e => e.is_staff_picked || e.is_featured)
      else
        qs.filter (fun e => e.is_staff_picked == false)
    else qs
  if name = "is_curated" ∧ value = false then qs
  else if value then qs.filter (fun e => e.has_location) else qs

/-- List insertion step of an insertion sort keyed by a boolean `le`
relation; models the ORM's `order_by`. -/
def insertByLe {α : Type} (le : α → α → Bool) (a : α) : List α → List α
  | [] => [a]
  | b :: bs => if le a b then a :: b :: bs else b :: insertByLe le a bs

/-- Insertion sort by a boolean `le` relation; models the ORM's
`order_by` (ascending by the annotated key). -/
def sortByLe {α : Type} (le : α → α → Bool) : List α → List α
  | [] => []
  | a :: as => insertByLe le a (sortByLe le as)

/-- Evaluation of an accumulated `Q` object: `none` models the empty
`Q()` (which contributes nothing to a disjunction). -/
def evalQ (acc : Option (Event → Bool)) (e : Event) : Bool :=
  match acc with
  | none => false
  | some q => q e

/-- One `if token in value: when_filter |= Q(...)` step of
`EventFilter.filter_when`. -/
def qOrIf (c : Prop) [Decidable c] (p : Event → Bool)
    (acc : Option (Event → Bool)) : Option (Event → Bool) :=
  if c then some (fun e => evalQ acc e || p e) else acc

/-- `queryset.filter(when_filter)`: filtering by the empty `Q()` returns
the queryset unchanged. -/
def applyQ (acc : Option (Event → Bool)) (qs : List Event) : List Event :=
  match acc with
  | none => qs
  | some p => qs.filter p

/-- Inclusive range test, modelling Django's `__range=[lo, hi]`. -/
def inclRange (lo hi x : Int) : Bool := decide (lo ≤ x) && decide (x ≤ hi)

/-- External time utilities consumed by `EventFilter.filter_when`
(`core.utils`, outside `src/`): the current instant, a city's local day
start, the four precomputed week/weekend windows, the local-time
conversion, and the `until.replace(hour=23, minute=59, second=59)`
end-of-day adjustment. -/
structure WhenCtx where
  now : Int
  cityDayStart : City → Int
  toCityTime : City → Int → Int
  weekend : City → Int × Int
  nextWeek : City → Int × Int
  nextWeekend : City → Int × Int
  thisWeek : City → Int × Int
  endOfDay : Int → Int

/-- The city-local day start used by `filter_when`:
`to_city_time(city, get_city_day_start(city))`. -/
def whenDayStart (ctx : WhenCtx) (city : City) : Int :=
  ctx.toCityTime city (ctx.cityDayStart city)

/-- Per-token predicates, one for each `if token in value:` branch of
`EventFilter.filter_when` (`src/filters.py` lines 359-402).  `today`'s
window end is `start + 23h59m59s = start + 86399`; `tomorrow` shifts both
bounds by one day; `happening-later` is `start_date >=` the converted end
of the next-weekend window; `past` is `end_date <= now`. -/
def whenTokenPred (ctx : WhenCtx) (city : City) : WhenToken → Event → Bool
  | .now => fun e =>
      decide (e.start_date ≤ ctx.now) && decide (ctx.now ≤ e.end_date)
  | .today => fun e =>
      inclRange (whenDayStart ctx city) (whenDayStart ctx city + 86399) e.start_date
  | .tomorrow => fun e =>
      inclRange (whenDayStart ctx city + 86400)
        (whenDayStart ctx city + 86399 + 86400) e.start_date
  | .weekend => fun e =>
      inclRange (ctx.toCityTime city (ctx.weekend city).1)
        (ctx.toCityTime city (ctx.weekend city).2) e.start_date
  | .nextWeek => fun e =>
      inclRange (ctx.toCityTime city (ctx.nextWeek city).1)
        (ctx.toCityTime city (ctx.nextWeek city).2) e.start_date
  | .nextWeekend => fun e =>
      inclRange (ctx.toCityTime city (ctx.nextWeekend city).1)
        (ctx.toCityTime city (ctx.nextWeekend city).2) e.start_date
  | .thisWeek => fun e =>
      inclRange (ctx.toCityTime city (ctx.thisWeek city).1)
        (ctx.toCityTime city (ctx.thisWeek city).2) e.start_date
  | .happeningLater => fun e =>
      decide (ctx.toCityTime city (ctx.nextWeekend city).2 ≤ e.start_date)
  | .past => fun e => decide (e.end_date ≤ ctx.now)

/-- The eight `|=` branches of `EventFilter.filter_when` in their source
order (`src/filters.py` lines 363-402); the `now` branch precedes them
and assigns (`=`) instead of OR-ing. -/
def whenBranchOrder : List WhenToken :=
  [.today, .tomorrow, .weekend, .nextWeek, .nextWeekend, .thisWeek,
    .happeningLater, .past]

/-- The accumulated `when_filter` `Q` object of `EventFilter.filter_when`
before the `since`/`until` block: the `now` assignment followed by the
eight OR branches, each guarded by its token's membership in the request
value. -/
def whenAcc (ctx : WhenCtx) (city : City) (value : List WhenToken) :
    Option (Event → Bool) :=
  whenBranchOrder.foldl
    (fun acc t => qOrIf (t ∈ value) (whenTokenPred ctx city t) acc)
    (if WhenToken.now ∈ value then some (whenTokenPred ctx city .now) else none)

/-- `EventFilter.filter_when` (`src/filters.py` lines 345-417) together
with `process_since_and_until` (lines 419-429).  The city defaults to the
Tampa Bay slug; an unknown slug returns the queryset unchanged.  The
`now` branch assigns (`=`) while every later branch ORs (`|=`); the
`since`/`until` range is OR-combined at the end, and the result is
`.distinct()`-ed. -/
def filter_when (ctx : WhenCtx) (cities : List City) (cityParam : Option String)
    (value : List WhenToken) (since untl : Option Int)
    (queryset : List Event) : List Event :=
  let city_slug := cityParam.getD "tampa-bay-florida-united-states"
  match lookupCity cities city_slug with
  | none => queryset
  | some city =>
    let acc := whenAcc ctx city value
    let sinceC := since.map (fun s => ctx.toCityTime city s)
    let untilC := untl.map (fun u => ctx.toCityTime city (ctx.endOfDay u))
    let acc :=
      match sinceC, untilC with
      | some s, some u => some (fun e => evalQ acc e || inclRange s u e.start_date)
      | none, some u => some (fun e => evalQ acc e || decide (e.start_date ≤ u))
      | some s, none => some (fun e => evalQ acc e || decide (s ≤ e.start_date))
      | none, none => acc
    (applyQ acc queryset).dedup

/-- Inputs of `EventFilter.filter_radius` (`src/filters.py` lines
464-528): the raw request parameters, the `City` table in its database
iteration order, the `get_tampa()` cluster slugs, and the external
geospatial distance (meters). -/
structure RadiusCtx where
  cityParam : Option String
  longitude : Option ℚ
  latitude : Option ℚ
  cities : List City
  tampaSlugs : List String
  geoDist : GeoPt → GeoPt → ℚ

/-- Outcome of the reference-point resolution inside `filter_radius`:
no-op passthrough, forced-empty, or a reference point with an optional
`add_miles` bound inflation. -/
inductive RefResolution where
  | noop
  | empty
  | ref (p : GeoPt) (addMiles : Option ℚ)
deriving DecidableEq, Repr

/-- Centroid of a two-point `MultiPoint`: the midpoint. -/
def midpointPt (p q : GeoPt) : GeoPt := ((p.1 + q.1) / 2, (p.2 + q.2) / 2)

/-- Reference-point resolution of `EventFilter.filter_radius`
(`src/filters.py` lines 464-499).  No city and no coordinate pair is a
no-op; an unresolvable city slug falls back to the coordinates or, absent
both, forces an empty result.  For a Tampa-cluster city the sibling
queryset is annotated with distance but NOT ordered by it, so `.first()`
yields the first sibling in database (primary-key) order; the reference
point becomes the centroid with that sibling and `add_miles` is that
sibling's distance divided by 1.999. -/
def resolveRadiusRef (ctx : RadiusCtx) : RefResolution :=
  match ctx.cityParam with
  | none =>
    match ctx.longitude, ctx.latitude with
    | some lo, some la => .ref (lo, la) none
    | _, _ => .noop
  | some slug =>
    match lookupCity ctx.cities slug with
    | none =>
      match ctx.longitude, ctx.latitude with
      | some lo, some la => .ref (lo, la) none
      | _, _ => .empty
    | some city =>
      if city.slug ∈ ctx.tampaSlugs then
        let siblings :=
          (ctx.cities.filter (fun c => decide (c.slug ∈ ctx.tampaSlugs))).filter
            (fun c => decide (c.slug ≠ city.slug))
        match siblings.head? with
        | some s =>
          .ref (midpointPt s.point city.point)
            (some (ctx.geoDist s.point city.point / (1999 / 1000)))
        | none => .ref city.point none
      else .ref city.point none

/-- The meter bound applied by `filter_radius`: the token's mile bound
times 1609, plus `add_miles` when truthy (a zero inflation is falsy in
Python and therefore skipped, `src/filters.py` lines 501-526). -/
def effectiveBound (value : RadiusToken) (addMiles : Option ℚ) : ℚ :=
  let one_mile : ℚ := 1609
  let distance := radiusMiles value * one_mile
  match addMiles with
  | some a => if a = 0 then distance else distance + a
  | none => distance

/-- `EventFilter.filter_radius` (`src/filters.py` lines 464-528): resolve
the reference point, compute the meter bound, and keep events whose
non-null point lies within the bound of the reference point. -/
def filter_radius (ctx : RadiusCtx) (value : RadiusToken)
    (queryset : List Event) : List Event :=
  match resolveRadiusRef ctx with
  | .noop => queryset
  | .empty => []
  | .ref refPt addMiles =>
    queryset.filter (fun e =>
      match e.point with
      | none => false
      | some p => decide (ctx.geoDist p refPt ≤ effectiveBound value addMiles))

/-- Case-insensitive "starts with" (`name__istartswith`): the lower-cased
value heads the lower-cased field. -/
def istartswith (field value : String) : Bool :=
  List.isPrefixOf (value.toList.map Char.toLower) (field.toList.map Char.toLower)

/-- Containment of one character list inside another, used to model SQL
`LIKE '%...%'`. -/
def subList (needle : List Char) : List Char → Bool
  | [] => decide (needle = [])
  | c :: cs => List.isPrefixOf needle (c :: cs) || subList needle cs

/-- Case-insensitive substring containment (`__icontains`). -/
def icontains (field value : String) : Bool :=
  subList (value.toList.map Char.toLower) (field.toList.map Char.toLower)

/-- Executable maximum on rationals, modelling the SQL `Greatest` of the
two trigram similarities. -/
def qmax (a b : ℚ) : ℚ := if a ≤ b then b else a

/-- Inputs of the `EventViewSet` query pipeline (`src/views.py`): the
manager results (`Event.objects.viewable()`, `viewable(past_events=True)`,
and the bare `Event.objects` used by the `what` branch), the `City` table,
the `get_tampa()` cluster slugs, the geospatial mile distance, the current
instant, and the Postgres full-text and trigram oracles. -/
structure EventsCtx where
  events : List Event
  pastEvents : List Event
  allEvents : List Event
  cities : List City
  tampaSlugs : List String
  distMiles : GeoPt → GeoPt → ℚ
  now : Int
  ft : String → Event → Bool
  trig : String → String → ℚ

/-- The request query parameters read by `EventViewSet.get_queryset`. -/
structure EventsRequest where
  city : Option String
  radius : Option String
  whenParam : Option String
  what : Option String
  search : Option String

/-- Radius-token-to-mile mapping of
`EventViewSet.get_nearest_curated_city` (`src/views.py` lines 196-207):
only five tokens are recognised, `mile-100-plus` maps to a 10000-mile
search bound, and anything else yields `none` (the method's `return
False`). -/
def radiusResolverMiles (radius : String) : Option ℚ :=
  if radius = "mile-5" then some 5
  else if radius = "mile-25" then some 25
  else if radius = "mile-50" then some 50
  else if radius = "mile-100" then some 100
  else if radius = "mile-100-plus" then some 10000
  else none

namespace EventViewSet

/-- `EventViewSet.get_nearest_curated_city` (`src/views.py` lines
194-223): curated cities within the mile bound, ordered ascending by
distance from the target city; if none and the city is in the Tampa
cluster, the anchor-slug rows are substituted.  `none` models the
`return False` for unrecognised radius tokens. -/
def get_nearest_curated_city (ctx : EventsCtx) (city : City) (radius : String) :
    Option (List City) :=
  match radiusResolverMiles radius with
  | none => none
  | some distance =>
    let cities := ctx.cities.filter (fun c =>
      c.is_curated && decide (ctx.distMiles c.point city.point ≤ distance))
    let cities := sortByLe (fun a b =>
      decide (ctx.distMiles a.point city.point ≤ ctx.distMiles b.point city.point))
      cities
    if cities = [] ∧ city.slug ∈ ctx.tampaSlugs then
      some (ctx.cities.filter (fun c => c.slug == "tampa-bay-florida-united-states"))
    else
      some cities

/-- `EventViewSet.filter_search` (`src/views.py` lines 785-825): queries
shorter than 3 characters return nothing; otherwise try, first non-empty
result wins: full-text-or-name-starts-with, name-starts-with alone,
trigram similarity strictly above 0.03 ordered descending by the greatest
of the name and description similarities, then unranked substring match
on name or description. -/
def filter_search (ft : String → Event → Bool) (trig : String → String → ℚ)
    (value : String) (queryset : List Event) : List Event :=
  if value.length < 3 then []
  else
    let ft_search := queryset.filter (fun e => ft value e || istartswith e.name value)
    if ft_search ≠ [] then ft_search
    else
      let name_search := queryset.filter (fun e => istartswith e.name value)
      if name_search ≠ [] then name_search
      else
        let similarity := fun e => qmax (trig e.name value) (trig e.description value)
        let ts_search := sortByLe (fun a b => decide (similarity b ≤ similarity a))
          (queryset.filter (fun e => decide ((3 / 100 : ℚ) < similarity e)))
        if ts_search ≠ [] then ts_search
        else
          queryset.filter (fun e =>
            icontains e.name value || icontains e.description value)

/-- `EventViewSet.is_search` (`src/views.py` lines 767-772): a search is
requested when the `search` parameter is present and non-empty. -/
def is_search (r : EventsRequest) : Bool :=
  match r.search with
  | some v => decide (v ≠ "")
  | none => false

/-- `EventViewSet.search_events` (`src/views.py` lines 774-783): the
viewable (or past-events) base filtered through the search chain and
`.distinct()`-ed. -/
def search_events (ctx : EventsCtx) (r : EventsRequest) : List Event :=
  let value := (r.search).getD ""
  let base := if r.whenParam = some "past" then ctx.pastEvents else ctx.events
  (filter_search ctx.ft ctx.trig value base).dedup

/-- `EventViewSet.get_queryset` (`src/views.py` lines 225-279).  The
radius parameter defaults to `mile-100-plus` (line 227).  Search requests
short-circuit to `search_events`.  For a request city that exists and is
not curated: when the resolver yields no candidate (or an empty list),
featured and staff-picked events are filtered out; otherwise
featured/staff-picked events located in any candidate city other than the
first are excluded.  A truthy `what` parameter replaces the queryset with
the unfiltered base restricted to future events (line 277 reads the
original `Event.objects`), and the result is ordered by `start_date`. -/
def get_queryset (ctx : EventsCtx) (r : EventsRequest) : List Event :=
  let radius := (r.radius).getD "mile-100-plus"
  if is_search r then search_events ctx r
  else
    let base := if r.whenParam = some "past" then ctx.pastEvents else ctx.events
    let qs :=
      match r.city with
      | none => base
      | some slug =>
        match lookupCity ctx.cities slug with
        | none => base
        | some city =>
          if city.is_curated then base
          else
            match get_nearest_curated_city ctx city radius with
            | none =>
              (base.filter (fun e => e.is_featured == false)).filter
                (fun e => e.is_staff_picked == false)
            | some l =>
              if l = [] then
                (base.filter (fun e => e.is_featured == false)).filter
                  (fun e => e.is_staff_picked == false)
              else
                match l.head? with
                | none => base
                | some c0 =>
                  let others := l.filter (fun c => decide (c.id ≠ c0.id))
                  base.filter (fun e =>
                    !((e.is_featured || e.is_staff_picked) &&
                      e.locationCityIds.any (fun cid =>
                        others.any (fun c => c.id == cid))))
    let whatTruthy : Bool :=
      match r.what with
      | some w => decide (w ≠ "")
      | none => false
    let qs :=
      if whatTruthy then ctx.allEvents.filter (fun e => decide (ctx.now ≤ e.start_date))
      else qs
    sortByLe (fun a b => decide (a.start_date ≤ b.start_date)) qs

end EventViewSet

namespace MapViewSet

/-- `MapViewSet.filter_search` (`src/views.py` lines 1437-1469): the same
chain as `EventViewSet.filter_search` except that there is NO trigram
similarity step — a failed name-starts-with search falls directly through
to the unranked substring match. -/
def filter_search (ft : String → Event → Bool)
    (value : String) (queryset : List Event) : List Event :=
  if value.length < 3 then []
  else
    let ft_search := queryset.filter (fun e => ft value e || istartswith e.name value)
    if ft_search ≠ [] then ft_search
    else
      let name_search := queryset.filter (fun e => istartswith e.name value)
      if name_search ≠ [] then name_search
      else
        queryset.filter (fun e =>
          icontains e.name value || icontains e.description value)

end MapViewSet

/-- Composite key of a `NativeCache` row as filtered by
`EventViewSet.when_paginated` (`src/views.py` lines 503-512): the url,
platform, page-type and tab dimensions are fixed by the endpoint, so the
varying components are city, radius, page number and page size. -/
structure CacheKey where
  city : Option String
  radius : Option String
  pageNo : Nat
  pageSize : Nat
deriving DecidableEq, Repr

/-- A stored `NativeCache` row: its key, its serialized response payload,
and the outcome of the injected `is_refresh_cache` staleness predicate
for the present window. -/
structure CacheEntry where
  key : CacheKey
  response : String
  stale : Bool
deriving DecidableEq, Repr

/-- What the read path returns: a stored payload verbatim, or a freshly
computed response on a cache miss. -/
inductive ReadOutcome where
  | cached (payload : String)
  | fresh
deriving DecidableEq, Repr

/-- `NativeCache.objects.filter(...)` plus `.first()`. -/
def nativeCacheLookup (table : List CacheEntry) (k : CacheKey) : Option CacheEntry :=
  (table.filter (fun c => c.key == k)).head?

/-- The cache read path shared by `EventViewSet.when_paginated` and
`SectionViewSet.desktop` (`src/views.py` lines 503-535 and 1085-1118):
on a hit the stored payload is returned; when the hit is stale a refresh
task keyed by the same dimensions is dispatched (second component); on a
miss the response is computed fresh and a refresh task is dispatched. -/
def when_paginated_read (table : List CacheEntry) (k : CacheKey) :
    ReadOutcome × List CacheKey :=
  match nativeCacheLookup table k with
  | some c => (.cached c.response, if c.stale then [k] else [])
  | none => (.fresh, [k])

/-- Refresh dispatches produced by a sequence of requests arriving within
one staleness window (the cache table, and hence every entry's staleness,
unchanged throughout — no refresh has landed yet). -/
def readPathDispatches (table : List CacheEntry) (requests : List CacheKey) :
    List CacheKey :=
  (requests.map (fun k => (when_paginated_read table k).2)).flatten

/-- An event that is featured but has no resolved location (concrete
instance used to probe `filter_has_location`). -/
def eC5 : Event :=
  { id := 1, name := "a", description := "", start_date := 0, end_date := 0,
    is_featured := true, is_staff_picked := false, has_location := false,
    prices_available := [], point := none, locationCityIds := [] }

/-- An event tagged with exactly the `price_25` tier (concrete instance
used to probe the price-section predicates). -/
def eC4 : Event :=
  { id := 2, name := "b", description := "", start_date := 0, end_date := 0,
    is_featured := false, is_staff_picked := false, has_location := true,
    prices_available := [PriceTier.price_25], point := none, locationCityIds := [] }

/-- A trivial `WhenCtx` used by concrete witnesses. -/
def wctx0 : WhenCtx :=
  { now := 0, cityDayStart := fun _ => 0, toCityTime := fun _ t => t,
    weekend := fun _ => (0, 0), nextWeek := fun _ => (0, 0),
    nextWeekend := fun _ => (0, 0), thisWeek := fun _ => (0, 0),
    endOfDay := fun t => t }

/-- A radius context with an unresolvable city slug and no coordinate
fallback (concrete witness input). -/
def rctxNoCity : RadiusCtx :=
  { cityParam := some "x", longitude := none, latitude := none,
    cities := [], tampaSlugs := [], geoDist := fun _ _ => 0 }

/-- A radius context with neither city nor coordinates (concrete witness
input). -/
def rctxEmptyParams : RadiusCtx :=
  { cityParam := none, longitude := none, latitude := none,
    cities := [], tampaSlugs := [], geoDist := fun _ _ => 0 }

/-- A radius context resolving to the origin via explicit coordinates
(concrete witness input). -/
def rctxOrigin : RadiusCtx :=
  { cityParam := none, longitude := some 0, latitude := some 0,
    cities := [], tampaSlugs := [], geoDist := fun _ _ => 0 }

/-- An event located at the origin (concrete witness input). -/
def eGeo : Event :=
  { id := 3, name := "c", description := "", start_date := 0, end_date := 0,
    is_featured := false, is_staff_picked := false, has_location := true,
    prices_available := [], point := some (0, 0), locationCityIds := [] }

/-- The Tampa Bay anchor city row (concrete witness input). -/
def cityTampa : City :=
  { id := 9, slug := "tampa-bay-florida-united-states", point := (0, 0),
    is_curated := true }

/-- An event starting at second 100 of the epoch (concrete witness
input for the `when` windows). -/
def eWhen : Event :=
  { id := 4, name := "d", description := "", start_date := 100, end_date := 200,
    is_featured := false, is_staff_picked := false, has_location := true,
    prices_available := [], point := none, locationCityIds := [] }

/-- An event matching a test query only by trigram similarity — neither
by name prefix nor by substring (concrete search-probe input). -/
def eSrch : Event :=
  { id := 5, name := "qqq", description := "zzz", start_date := 0, end_date := 0,
    is_featured := false, is_staff_picked := false, has_location := true,
    prices_available := [], point := none, locationCityIds := [] }

/-- Manhattan distance — a concrete stand-in for the external geospatial
distance in counterexample tables. -/
def manhattan : GeoPt → GeoPt → ℚ := fun p q => |p.1 - q.1| + |p.2 - q.2|

/-- Tampa-cluster city at the origin (requested city of the C6 table). -/
def cityA : City := { id := 1, slug := "a", point := (0, 0), is_curated := false }

/-- Tampa-cluster sibling at distance 10 — first in table order. -/
def cityB : City := { id := 2, slug := "b", point := (0, 10), is_curated := false }

/-- Tampa-cluster sibling at distance 1 — the strictly nearest sibling,
but second in table order. -/
def cityC : City := { id := 3, slug := "c", point := (0, 1), is_curated := false }

/-- Radius context for a Tampa-cluster city with two siblings whose
table order disagrees with their distance order. -/
def rctxC6 : RadiusCtx :=
  { cityParam := some "a", longitude := none, latitude := none,
    cities := [cityA, cityB, cityC], tampaSlugs := ["a", "b", "c"],
    geoDist := manhattan }

/-- A cache key (concrete probe input). -/
def k9 : CacheKey :=
  { city := some "c", radius := some "mile-25", pageNo := 1, pageSize := 10 }

/-- A stale cache entry stored under `k9`. -/
def entry9 : CacheEntry := { key := k9, response := "payload", stale := true }

/-- A cache table holding exactly the stale entry. -/
def cacheTable9 : List CacheEntry := [entry9]

/-- An uncurated city with no curated city anywhere near (C1 witness
table). -/
def cityU : City := { id := 21, slug := "u", point := (0, 0), is_curated := false }

/-- An ordinary event located in `cityU`. -/
def eOrd : Event :=
  { id := 6, name := "e", description := "", start_date := 10, end_date := 20,
    is_featured := false, is_staff_picked := false, has_location := true,
    prices_available := [], point := some (0, 0), locationCityIds := [21] }

/-- A featured event located in `cityU`. -/
def eFeat : Event :=
  { id := 7, name := "f", description := "", start_date := 10, end_date := 20,
    is_featured := true, is_staff_picked := false, has_location := true,
    prices_available := [], point := some (0, 0), locationCityIds := [21] }

/-- View context whose city table holds only the uncurated `cityU`
(no curated candidate exists at any radius). -/
def ctxC1 : EventsCtx :=
  { events := [eOrd, eFeat], pastEvents := [], allEvents := [eOrd, eFeat],
    cities := [cityU], tampaSlugs := [], distMiles := fun _ _ => 1,
    now := 0, ft := fun _ _ => false, trig := fun _ _ => 0 }

/-- Request for `cityU` at an explicit 25-mile radius, no search. -/
def rC1 : EventsRequest :=
  { city := some "u", radius := some "mile-25", whenParam := none,
    what := none, search := none }

/-- Uncurated requested city of the C10 table. -/
def cityA10 : City := { id := 31, slug := "a", point := (0, 0), is_curated := false }

/-- A curated city within the 10000-mile default search bound. -/
def cityB10 : City := { id := 32, slug := "b", point := (0, 1), is_curated := true }

/-- A featured event located in the requested (uncurated) city. -/
def e10 : Event :=
  { id := 8, name := "g", description := "", start_date := 10, end_date := 20,
    is_featured := true, is_staff_picked := false, has_location := true,
    prices_available := [], point := some (0, 0), locationCityIds := [31] }

/-- View context with an uncurated requested city and one curated city
within the 10000-mile bound. -/
def ctx10 : EventsCtx :=
  { events := [e10], pastEvents := [], allEvents := [e10],
    cities := [cityA10, cityB10], tampaSlugs := [], distMiles := fun _ _ => 1,
    now := 0, ft := fun _ _ => false, trig := fun _ _ => 0 }

/-- Request with NO radius parameter for the uncurated city. -/
def r10 : EventsRequest :=
  { city := some "a", radius := none, whenParam := none,
    what := none, search := none }

/-- Request for `cityU` with the explicit radius token `mile-150` — a
token the curated-city resolver does not handle. -/
def r150 : EventsRequest :=
  { city := some "u", radius := some "mile-150", whenParam := none,
    what := none, search := none }

/-! ### Theorems -/

theorem mem_insertByLe {α : Type} (le : α → α → Bool) (x a : α) (l : List α) :
    a ∈ insertByLe le x l ↔ a = x ∨ a ∈ l := by
  induction l with
  | nil => simp [insertByLe]
  | cons b bs ih =>
    by_cases h : le x b
    · simp [insertByLe, h]
    · simp [insertByLe, h, ih]
      tauto

theorem mem_sortByLe {α : Type} (le : α → α → Bool) (a : α) (l : List α) :
    a ∈ sortByLe le l ↔ a ∈ l := by
  induction l with
  | nil => simp [sortByLe]
  | cons b bs ih => simp [sortByLe, mem_insertByLe, ih]

theorem pairwise_insertByLe {α : Type} (le : α → α → Bool)
    (htot : ∀ a b, le a b = true ∨ le b a = true)
    (htrans : ∀ a b c, le a b = true → le b c = true → le a c = true)
    (x : α) (l : List α) (hl : l.Pairwise (fun a b => le a b = true)) :
    (insertByLe le x l).Pairwise (fun a b => le a b = true) := by
  induction l with
  | nil => simp [insertByLe]
  | cons b bs ih =>
    rcases List.pairwise_cons.mp hl with ⟨hb, hbs⟩
    by_cases h : le x b = true
    · rw [insertByLe, if_pos h]
      refine List.pairwise_cons.mpr ⟨?_, hl⟩
      intro y hy
      rcases List.mem_cons.mp hy with rfl | hy
      · exact h
      · exact htrans _ _ _ h (hb _ hy)
    · rw [insertByLe, if_neg h]
      refine List.pairwise_cons.mpr ⟨?_, ih hbs⟩
      intro y hy
      rcases (mem_insertByLe le x y bs).mp hy with rfl | hy
      · rcases htot y b with hyb | hby
        · exact absurd hyb h
        · exact hby
      · exact hb _ hy

theorem pairwise_sortByLe {α : Type} (le : α → α → Bool)
    (htot : ∀ a b, le a b = true ∨ le b a = true)
    (htrans : ∀ a b c, le a b = true → le b c = true → le a c = true)
    (l : List α) :
    (sortByLe le l).Pairwise (fun a b => le a b = true) := by
  induction l with
  | nil => simp [sortByLe]
  | cons b bs ih => exact pairwise_insertByLe le htot htrans b _ ih

theorem sortByLe_head_le {α : Type} (le : α → α → Bool)
    (htot : ∀ a b, le a b = true ∨ le b a = true)
    (htrans : ∀ a b c, le a b = true → le b c = true → le a c = true)
    (l : List α) (c0 : α) (h : (sortByLe le l).head? = some c0) :
    ∀ c ∈ sortByLe le l, le c0 c = true := by
  have hp := pairwise_sortByLe le htot htrans l
  cases hs : sortByLe le l with
  | nil => intro c hc; simp [hs] at hc
  | cons a rest =>
    rw [hs] at h hp
    injection h with h
    subst h
    intro c hc
    rcases List.mem_cons.mp hc with rfl | hc
    · rcases htot c c with h1 | h1 <;> exact h1
    · exact (List.pairwise_cons.mp hp).1 _ hc

theorem forall_tierIdx_lt (n : Nat) (P : PriceTier → Prop) :
    (∀ u, tierIdx u < n → P u) ↔
      ((0 < n → P .free) ∧ (1 < n → P .price_10) ∧ (2 < n → P .price_25) ∧
        (3 < n → P .price_50) ∧ (4 < n → P .price_100) ∧
        (5 < n → P .price_100_plus)) := by
  constructor
  · intro h
    exact ⟨fun h0 => h _ h0, fun h1 => h _ h1, fun h2 => h _ h2,
      fun h3 => h _ h3, fun h4 => h _ h4, fun h5 => h _ h5⟩
  · rintro ⟨h0, h1, h2, h3, h4, h5⟩ u hu
    cases u <;> simp only [tierIdx] at hu <;> tauto

theorem mem_filter_price (v : PriceTier) (qs : List Event) (e : Event) :
    e ∈ filter_price v qs ↔ e ∈ qs ∧ v ∈ e.prices_available := by
  simp [filter_price, List.mem_filter]

theorem mem_filter_price_sections (v : PriceTier) (qs : List Event) (e : Event) :
    e ∈ filter_price_sections v qs ↔
      e ∈ qs ∧ v ∈ e.prices_available ∧
        ∀ u : PriceTier, tierIdx u < tierIdx v → u ∉ e.prices_available := by
  cases v <;>
    rw [forall_tierIdx_lt] <;>
    simp [filter_price_sections, List.mem_filter, tierIdx] <;>
    tauto

theorem filter_price_sections_single_tag (t v : PriceTier) (qs : List Event)
    (e : Event) (ht : e.prices_available = [t]) :
    e ∈ filter_price_sections v qs ↔ e ∈ qs ∧ v = t := by
  rw [mem_filter_price_sections, ht]
  constructor
  · rintro ⟨he, hv, -⟩
    exact ⟨he, by simpa using hv⟩
  · rintro ⟨he, rfl⟩
    refine ⟨he, by simp, ?_⟩
    intro u hu
    simp only [List.mem_singleton]
    rintro rfl
    exact absurd hu (lt_irrefl _)

/-- C4: the plain price predicate matches exactly the events whose
`prices_available` set contains the requested tier; the sections variant
additionally excludes every event tagged with a strictly lower tier; and
for an event tagged with exactly one tier the six sections predicates are
mutually exclusive and jointly exhaustive (the event falls in precisely
the bucket of its own tier). -/
theorem C4_price_buckets :
    (∀ (v : PriceTier) (qs : List Event) (e : Event),
        e ∈ filter_price v qs ↔ e ∈ qs ∧ v ∈ e.prices_available)
    ∧ (∀ (v : PriceTier) (qs : List Event) (e : Event),
        e ∈ filter_price_sections v qs ↔
          e ∈ qs ∧ v ∈ e.prices_available ∧
            ∀ u : PriceTier, tierIdx u < tierIdx v → u ∉ e.prices_available)
    ∧ (∀ (t v : PriceTier) (qs : List Event) (e : Event),
        e.prices_available = [t] →
          (e ∈ filter_price_sections v qs ↔ e ∈ qs ∧ v = t)) :=
  ⟨mem_filter_price, mem_filter_price_sections, filter_price_sections_single_tag⟩

/-- C4 witness: the event tagged exactly `price_25` lies in the
`price_25` sections bucket and in no other. -/
theorem C4_price_buckets_witness :
    (eC4 ∈ filter_price_sections PriceTier.price_25 [eC4] ↔
      eC4 ∈ [eC4] ∧ PriceTier.price_25 = PriceTier.price_25)
    ∧ (eC4 ∈ filter_price_sections PriceTier.free [eC4] ↔
      eC4 ∈ [eC4] ∧ PriceTier.free = PriceTier.price_25) :=
  ⟨C4_price_buckets.2.2 PriceTier.price_25 PriceTier.price_25 [eC4] eC4 rfl,
    C4_price_buckets.2.2 PriceTier.price_25 PriceTier.free [eC4] eC4 rfl⟩

theorem mem_filter_has_location_curated_true (qs : List Event) (e : Event) :
    e ∈ filter_has_location "is_curated" true qs ↔
      e ∈ qs ∧ (e.is_staff_picked = true ∨ e.is_featured = true) ∧
        e.has_location = true := by
  simp [filter_has_location, List.mem_filter]
  tauto

/-- C5 counterexample: a featured event without the has-location flag is
rejected by the `is_curated=true` predicate, although it satisfies
"is_staff_picked OR is_featured" — so the claimed "matches iff
staff-picked or featured" is false on the code. -/
theorem C5_counterexample :
    eC5.is_featured = true ∧ eC5.has_location = false ∧
      filter_has_location "is_curated" true [eC5] = [] := by
  refine ⟨rfl, rfl, ?_⟩
  simp [filter_has_location, eC5]

/-- C5 (amended): `is_curated=true` matches iff the event is staff-picked
or featured AND carries the has-location flag (the trailing
`has_location` filter of the shared method body also runs on this path);
`is_curated=false` matches iff the event is not staff-picked, the
has-location condition being short-circuited; `has_location=true`
requires exactly the has-location flag. -/
theorem C5_curation_predicate :
    (∀ (qs : List Event) (e : Event),
        e ∈ filter_has_location "is_curated" true qs ↔
          e ∈ qs ∧ (e.is_staff_picked = true ∨ e.is_featured = true) ∧
            e.has_location = true)
    ∧ (∀ (qs : List Event) (e : Event),
        e ∈ filter_has_location "is_curated" false qs ↔
          e ∈ qs ∧ e.is_staff_picked = false)
    ∧ (∀ (qs : List Event) (e : Event),
        e ∈ filter_has_location "has_location" true qs ↔
          e ∈ qs ∧ e.has_location = true) := by
  refine ⟨mem_filter_has_location_curated_true, ?_, ?_⟩
  · intro qs e
    simp [filter_has_location, List.mem_filter]
  · intro qs e
    simp [filter_has_location, List.mem_filter]

/-- C3: an unknown city slug in the `when` filter leaves the queryset
unchanged (fail-open, before any window or `since`/`until` processing);
a city slug that resolves to no city in the radius filter, with no
latitude/longitude fallback, forces the empty result (fail-closed); and a
radius filter with neither city nor coordinates is a no-op. -/
theorem C3_fail_open_fail_closed :
    (∀ (ctx : WhenCtx) (cities : List City) (s : String)
        (value : List WhenToken) (since untl : Option Int) (qs : List Event),
        lookupCity cities s = none →
          filter_when ctx cities (some s) value since untl qs = qs)
    ∧ (∀ (ctx : RadiusCtx) (v : RadiusToken) (qs : List Event) (s : String),
        ctx.cityParam = some s → lookupCity ctx.cities s = none →
        ctx.longitude = none → ctx.latitude = none →
          filter_radius ctx v qs = [])
    ∧ (∀ (ctx : RadiusCtx) (v : RadiusToken) (qs : List Event),
        ctx.cityParam = none → ctx.longitude = none → ctx.latitude = none →
          filter_radius ctx v qs = qs) := by
  refine ⟨?_, ?_, ?_⟩
  · intro ctx cities s value since untl qs h
    simp [filter_when, h]
  · intro ctx v qs s hcity hlook hlon hlat
    simp [filter_radius, resolveRadiusRef, hcity, hlook, hlon, hlat]
  · intro ctx v qs hcity hlon hlat
    simp [filter_radius, resolveRadiusRef, hcity, hlon, hlat]

/-- C3 witness: concrete instances of the three behaviours. -/
theorem C3_fail_open_fail_closed_witness :
    filter_when wctx0 [] (some "x") [WhenToken.today] none none [eC5] = [eC5]
    ∧ filter_radius rctxNoCity RadiusToken.mile5 [eC5] = []
    ∧ filter_radius rctxEmptyParams RadiusToken.mile5 [eC5] = [eC5] :=
  ⟨C3_fail_open_fail_closed.1 wctx0 [] "x" [WhenToken.today] none none [eC5] rfl,
    C3_fail_open_fail_closed.2.1 rctxNoCity RadiusToken.mile5 [eC5] "x" rfl rfl rfl rfl,
    C3_fail_open_fail_closed.2.2 rctxEmptyParams RadiusToken.mile5 [eC5] rfl rfl rfl⟩

theorem radiusMiles_mono (v w : RadiusToken) (h : radiusIdx v ≤ radiusIdx w) :
    radiusMiles v ≤ radiusMiles w := by
  revert h
  revert v w
  decide

theorem radiusMiles_pos (v : RadiusToken) : 0 < radiusMiles v := by
  cases v <;> norm_num [radiusMiles]

theorem effectiveBound_mono (v w : RadiusToken) (a : Option ℚ)
    (h : radiusIdx v ≤ radiusIdx w) :
    effectiveBound v a ≤ effectiveBound w a := by
  have hm : radiusMiles v ≤ radiusMiles w := radiusMiles_mono v w h
  have h1609 : radiusMiles v * 1609 ≤ radiusMiles w * 1609 := by
    nlinarith
  cases a with
  | none => simpa [effectiveBound] using h1609
  | some x =>
    by_cases hx : x = 0
    · simpa [effectiveBound, hx] using h1609
    · simp only [effectiveBound, if_neg hx]
      linarith

/-- C8: the radius predicate is monotone in the `RADIUS_CHOICES` token
order — for any resolution context, every event matched under a smaller
radius token is matched under any larger one — and `mile-100-plus` maps
to the same 150-mile bound as `mile-150`. -/
theorem C8_radius_monotone :
    (∀ (ctx : RadiusCtx) (v w : RadiusToken) (qs : List Event) (e : Event),
        radiusIdx v ≤ radiusIdx w →
        e ∈ filter_radius ctx v qs → e ∈ filter_radius ctx w qs)
    ∧ radiusMiles RadiusToken.mile100plus = 150
    ∧ radiusMiles RadiusToken.mile100plus = radiusMiles RadiusToken.mile150 := by
  refine ⟨?_, rfl, rfl⟩
  intro ctx v w qs e hvw he
  cases hres : resolveRadiusRef ctx with
  | noop => simpa [filter_radius, hres] using (by simpa [filter_radius, hres] using he)
  | empty => simp [filter_radius, hres] at he
  | ref p add =>
    simp only [filter_radius, hres, List.mem_filter] at he ⊢
    refine ⟨he.1, ?_⟩
    have h2 := he.2
    cases hpt : e.point with
    | none => rw [hpt] at h2; simp at h2
    | some q =>
      rw [hpt] at h2
      simp only [decide_eq_true_eq] at h2 ⊢
      exact le_trans h2 (effectiveBound_mono v w add hvw)

/-- C8 witness: a concrete event within the 5-mile bound of the origin
reference point is also matched at 25 miles. -/
theorem C8_radius_monotone_witness :
    eGeo ∈ filter_radius rctxOrigin RadiusToken.mile25 [eGeo] :=
  C8_radius_monotone.1 rctxOrigin RadiusToken.mile5 RadiusToken.mile25
    [eGeo] eGeo (by decide)
    (by simp [filter_radius, resolveRadiusRef, rctxOrigin, eGeo,
      effectiveBound, radiusMiles])


theorem evalQ_qOrIf (c : Prop) [Decidable c] (p : Event → Bool)
    (acc : Option (Event → Bool)) (e : Event) :
    evalQ (qOrIf c p acc) e = (evalQ acc e || (decide c && p e)) := by
  by_cases h : c <;> simp [qOrIf, evalQ, h]

theorem qOrIf_eq_none (c : Prop) [Decidable c] (p : Event → Bool)
    (acc : Option (Event → Bool)) :
    qOrIf c p acc = none ↔ ¬c ∧ acc = none := by
  by_cases h : c <;> simp [qOrIf, h]

theorem mem_applyQ_dedup (acc : Option (Event → Bool)) (qs : List Event)
    (e : Event) (h : acc ≠ none) :
    e ∈ (applyQ acc qs).dedup ↔ e ∈ qs ∧ evalQ acc e = true := by
  cases acc with
  | none => exact absurd rfl h
  | some p => simp [applyQ, evalQ, List.mem_dedup, List.mem_filter]

theorem evalQ_foldl (ctx : WhenCtx) (city : City) (value ts : List WhenToken)
    (acc0 : Option (Event → Bool)) (e : Event) :
    evalQ (ts.foldl
      (fun acc t => qOrIf (t ∈ value) (whenTokenPred ctx city t) acc) acc0) e =
      (evalQ acc0 e ||
        ts.any (fun t => decide (t ∈ value) && whenTokenPred ctx city t e)) := by
  induction ts generalizing acc0 with
  | nil => simp
  | cons t ts ih =>
    simp only [List.foldl_cons, List.any_cons, ih, evalQ_qOrIf, Bool.or_assoc]

theorem foldl_qOrIf_eq_none (ctx : WhenCtx) (city : City)
    (value ts : List WhenToken) (acc0 : Option (Event → Bool)) :
    (ts.foldl
      (fun acc t => qOrIf (t ∈ value) (whenTokenPred ctx city t) acc) acc0)
        = none ↔ acc0 = none ∧ ∀ t ∈ ts, t ∉ value := by
  induction ts generalizing acc0 with
  | nil => simp
  | cons t ts ih =>
    simp only [List.foldl_cons, ih, qOrIf_eq_none]
    constructor
    · rintro ⟨⟨ht, h0⟩, hts⟩
      exact ⟨h0, by simpa [ht] using hts⟩
    · rintro ⟨h0, hall⟩
      refine ⟨⟨hall t (by simp), h0⟩, fun u hu => hall u (by simp [hu])⟩

theorem whenToken_now_or_branch (t : WhenToken) :
    t = WhenToken.now ∨ t ∈ whenBranchOrder := by
  cases t <;> simp [whenBranchOrder]

theorem whenAcc_ne_none (ctx : WhenCtx) (city : City) (value : List WhenToken)
    (hne : value ≠ []) : whenAcc ctx city value ≠ none := by
  intro hnone
  rcases List.exists_mem_of_ne_nil value hne with ⟨t, ht⟩
  rw [whenAcc, foldl_qOrIf_eq_none] at hnone
  rcases hnone with ⟨h0, hall⟩
  rcases whenToken_now_or_branch t with rfl | hbr
  · rw [if_pos ht] at h0
    exact Option.some_ne_none _ h0
  · exact hall t hbr ht

theorem evalQ_whenAcc (ctx : WhenCtx) (city : City) (value : List WhenToken)
    (e : Event) :
    evalQ (whenAcc ctx city value) e = true ↔
      ∃ t ∈ value, whenTokenPred ctx city t e = true := by
  rw [whenAcc, evalQ_foldl]
  have hbase : evalQ
      (if WhenToken.now ∈ value then some (whenTokenPred ctx city .now) else none)
      e = (decide (WhenToken.now ∈ value) && whenTokenPred ctx city .now e) := by
    by_cases h : WhenToken.now ∈ value <;> simp [evalQ, h]
  rw [hbase]
  simp only [Bool.or_eq_true, Bool.and_eq_true, decide_eq_true_eq,
    List.any_eq_true]
  constructor
  · rintro (⟨h1, h2⟩ | ⟨t, hbr, ht, hp⟩)
    · exact ⟨_, h1, h2⟩
    · exact ⟨t, ht, hp⟩
  · rintro ⟨t, ht, hp⟩
    rcases whenToken_now_or_branch t with rfl | hbr
    · exact Or.inl ⟨ht, hp⟩
    · exact Or.inr ⟨t, hbr, ht, hp⟩

theorem filter_when_mem (ctx : WhenCtx) (cities : List City)
    (cityParam : Option String) (value : List WhenToken) (qs : List Event)
    (e : Event) (city : City)
    (hcity : lookupCity cities
      (cityParam.getD "tampa-bay-florida-united-states") = some city)
    (hne : value ≠ []) :
    e ∈ filter_when ctx cities cityParam value none none qs ↔
      e ∈ qs ∧ ∃ t ∈ value, whenTokenPred ctx city t e = true := by
  simp only [filter_when, hcity, Option.map_none']
  rw [mem_applyQ_dedup _ _ _ (whenAcc_ne_none ctx city value hne),
    evalQ_whenAcc]

/-- C2: for a resolvable city, a non-empty `when` token set and no
explicit `since`/`until` range, the `when` predicate is the union of the
selected tokens' predicates: an event is kept iff it matches at least
one selected token.  `now` means start ≤ current instant ≤ end;
`today`/`tomorrow` mean the start falls in the city-local 24-hour window
whose end, `start + 86399 s = 23:59:59`, is inclusive; `happening-later`
means start ≥ the converted end of the next-weekend window; `past` means
end ≤ current instant. -/
theorem C2_when_union (ctx : WhenCtx) (cities : List City)
    (cityParam : Option String) (value : List WhenToken) (qs : List Event)
    (e : Event) (city : City)
    (hcity : lookupCity cities
      (cityParam.getD "tampa-bay-florida-united-states") = some city)
    (hne : value ≠ []) :
    (e ∈ filter_when ctx cities cityParam value none none qs ↔
      e ∈ qs ∧ ∃ t ∈ value, whenTokenPred ctx city t e = true)
    ∧ (whenTokenPred ctx city .now e = true ↔
        e.start_date ≤ ctx.now ∧ ctx.now ≤ e.end_date)
    ∧ (whenTokenPred ctx city .today e = true ↔
        whenDayStart ctx city ≤ e.start_date ∧
          e.start_date ≤ whenDayStart ctx city + 86399)
    ∧ (whenTokenPred ctx city .tomorrow e = true ↔
        whenDayStart ctx city + 86400 ≤ e.start_date ∧
          e.start_date ≤ whenDayStart ctx city + 86399 + 86400)
    ∧ (whenTokenPred ctx city .happeningLater e = true ↔
        ctx.toCityTime city (ctx.nextWeekend city).2 ≤ e.start_date)
    ∧ (whenTokenPred ctx city .past e = true ↔ e.end_date ≤ ctx.now) := by
  refine ⟨filter_when_mem ctx cities cityParam value qs e city hcity hne,
    ?_, ?_, ?_, ?_, ?_⟩ <;>
    simp [whenTokenPred, inclRange]

/-- C2 witness: with the default Tampa Bay city, day start at the epoch
and the single token `today`, the event starting at second 100 is kept. -/
theorem C2_when_union_witness :
    (eWhen ∈ filter_when wctx0 [cityTampa] none [WhenToken.today] none none
        [eWhen] ↔
      eWhen ∈ [eWhen] ∧
        ∃ t ∈ [WhenToken.today], whenTokenPred wctx0 cityTampa t eWhen = true) :=
  (C2_when_union wctx0 [cityTampa] none [WhenToken.today] [eWhen] eWhen
    cityTampa (by decide) (by decide)).1

/-- C6 counterexample: in a cluster table whose first-listed sibling
(`cityB`, at distance 10) is NOT the nearest (`cityC`, at distance 1),
the code centres on the centroid with `cityB` and inflates by
`10 / 1.999`, not by the nearest sibling's `1 / 1.999` — the sibling
queryset is annotated with distance but never ordered by it, so
`.first()` returns the first row in table order. -/
theorem C6_counterexample :
    resolveRadiusRef rctxC6 =
      RefResolution.ref (midpointPt cityB.point cityA.point)
        (some (manhattan cityB.point cityA.point / (1999 / 1000)))
    ∧ manhattan cityC.point cityA.point < manhattan cityB.point cityA.point
    ∧ midpointPt cityB.point cityA.point ≠ midpointPt cityC.point cityA.point
    ∧ manhattan cityB.point cityA.point / (1999 / 1000) ≠
        manhattan cityC.point cityA.point / (1999 / 1000) := by
  refine ⟨rfl, by norm_num [manhattan, cityA, cityB, cityC], ?_, ?_⟩
  · norm_num [midpointPt, cityA, cityB, cityC]
  · norm_num [manhattan, cityA, cityB, cityC]

/-- C6 (amended): for a cluster city with at least one sibling, the
reference point is the centroid of the city and the FIRST sibling in the
city table's iteration order (not necessarily the nearest), and the
effective bound is the nominal mile bound plus that sibling's distance
divided by 1.999 — a strictly positive inflation whenever that distance
is positive. -/
theorem C6_cluster_inflation (ctx : RadiusCtx) (slug : String) (city s : City)
    (hparam : ctx.cityParam = some slug)
    (hlook : lookupCity ctx.cities slug = some city)
    (htampa : city.slug ∈ ctx.tampaSlugs)
    (hsib : ((ctx.cities.filter
        (fun c => decide (c.slug ∈ ctx.tampaSlugs))).filter
        (fun c => decide (c.slug ≠ city.slug))).head? = some s)
    (hd : 0 < ctx.geoDist s.point city.point) :
    resolveRadiusRef ctx =
      RefResolution.ref (midpointPt s.point city.point)
        (some (ctx.geoDist s.point city.point / (1999 / 1000)))
    ∧ (∀ (v : RadiusToken) (qs : List Event),
        filter_radius ctx v qs = qs.filter (fun e =>
          match e.point with
          | none => false
          | some p => decide (ctx.geoDist p (midpointPt s.point city.point) ≤
              radiusMiles v * 1609 +
                ctx.geoDist s.point city.point / (1999 / 1000))))
    ∧ (∀ v : RadiusToken, radiusMiles v * 1609 <
        radiusMiles v * 1609 + ctx.geoDist s.point city.point / (1999 / 1000)) := by
  have hres : resolveRadiusRef ctx =
      RefResolution.ref (midpointPt s.point city.point)
        (some (ctx.geoDist s.point city.point / (1999 / 1000))) := by
    simp only [resolveRadiusRef, hparam, hlook, if_pos htampa, hsib]
  have hpos : 0 < ctx.geoDist s.point city.point / (1999 / 1000) :=
    div_pos hd (by norm_num)
  refine ⟨hres, ?_, fun v => by linarith⟩
  intro v qs
  have hb : effectiveBound v (some (ctx.geoDist s.point city.point /
      (1999 / 1000))) = radiusMiles v * 1609 +
        ctx.geoDist s.point city.point / (1999 / 1000) := by
    rw [effectiveBound]
    simp only [if_neg (ne_of_gt hpos)]
  rw [filter_radius, hres]
  simp only [hb]

/-- C6 witness: concrete application on the three-city cluster table —
the reference point and inflation are those of first-listed `cityB`. -/
theorem C6_cluster_inflation_witness :
    resolveRadiusRef rctxC6 =
      RefResolution.ref (midpointPt cityB.point cityA.point)
        (some (manhattan cityB.point cityA.point / (1999 / 1000)))
    ∧ (∀ v : RadiusToken, radiusMiles v * 1609 <
        radiusMiles v * 1609 + manhattan cityB.point cityA.point / (1999 / 1000)) := by
  have h := C6_cluster_inflation rctxC6 "a" cityA cityB rfl rfl
    (by decide) rfl (by norm_num [rctxC6, manhattan, cityA, cityB])
  exact ⟨h.1, h.2.2⟩

/-- C9 counterexample: two requests for the same stale key within one
staleness window (the cache row unchanged between them) each dispatch a
refresh — two dispatches, not the claimed single dispatch per key per
window.  The read path has no per-window deduplication. -/
theorem C9_counterexample :
    (when_paginated_read cacheTable9 k9).1 = ReadOutcome.cached "payload"
    ∧ readPathDispatches cacheTable9 [k9, k9] = [k9, k9]
    ∧ (readPathDispatches cacheTable9 [k9, k9]).length = 2 :=
  ⟨rfl, rfl, rfl⟩

/-- C9 (amended): a stale hit returns the stored payload immediately and
dispatches one refresh keyed by the same dimensions; consequently every
request observing the stale entry dispatches, so n same-key requests
within one staleness window produce n dispatches. -/
theorem C9_stale_read_dispatch (table : List CacheEntry) (k : CacheKey)
    (c : CacheEntry) (hlook : nativeCacheLookup table k = some c)
    (hstale : c.stale = true) :
    (when_paginated_read table k).1 = ReadOutcome.cached c.response
    ∧ (when_paginated_read table k).2 = [k]
    ∧ ∀ requests : List CacheKey, (∀ x ∈ requests, x = k) →
        (readPathDispatches table requests).length = requests.length := by
  refine ⟨by simp [when_paginated_read, hlook],
    by simp [when_paginated_read, hlook, hstale], ?_⟩
  intro requests
  induction requests with
  | nil => intro _; simp [readPathDispatches]
  | cons r rs ih =>
    intro hall
    have hr : r = k := hall r (List.mem_cons_self r rs)
    subst hr
    have hlen := ih (fun x hx => hall x (List.mem_cons_of_mem _ hx))
    simp only [readPathDispatches, List.map_cons, List.flatten_cons,
      List.length_append, List.length_cons] at hlen ⊢
    rw [hlen]
    simp [when_paginated_read, hlook, hstale]
    omega

/-- C9 witness: the stale-hit read on the concrete table returns the
stored payload and dispatches exactly one refresh for that request. -/
theorem C9_stale_read_dispatch_witness :
    (when_paginated_read cacheTable9 k9).1 = ReadOutcome.cached entry9.response
    ∧ (when_paginated_read cacheTable9 k9).2 = [k9] := by
  have h := C9_stale_read_dispatch cacheTable9 k9 entry9 rfl rfl
  exact ⟨h.1, h.2.1⟩


theorem is_search_eq_false (r : EventsRequest) (h : r.search = none) :
    EventViewSet.is_search r = false := by
  simp [EventViewSet.is_search, h]

theorem exclude_pred_iff (e : Event) (l : List City) (c0 : City) :
    (!((e.is_featured || e.is_staff_picked) &&
      e.locationCityIds.any (fun cid =>
        (l.filter (fun c => decide (c.id ≠ c0.id))).any (fun c => c.id == cid))))
      = true
    ↔ ¬((e.is_featured = true ∨ e.is_staff_picked = true) ∧
        ∃ cid ∈ e.locationCityIds, ∃ c ∈ l, c.id ≠ c0.id ∧ c.id = cid) := by
  simp [List.any_eq_true, List.mem_filter, Bool.or_eq_true, Bool.and_eq_true,
    beq_iff_eq, decide_eq_true_eq]
  cases hf : e.is_featured <;> cases hs : e.is_staff_picked <;> simp_all

theorem get_queryset_no_candidate (ctx : EventsCtx) (r : EventsRequest)
    (slug : String) (city : City) (e : Event)
    (hsearch : r.search = none) (hwhat : r.what = none)
    (hcity : r.city = some slug)
    (hlook : lookupCity ctx.cities slug = some city)
    (hcur : city.is_curated = false)
    (hres : EventViewSet.get_nearest_curated_city ctx city
        ((r.radius).getD "mile-100-plus") = none
      ∨ EventViewSet.get_nearest_curated_city ctx city
        ((r.radius).getD "mile-100-plus") = some []) :
    e ∈ EventViewSet.get_queryset ctx r ↔
      e ∈ (if r.whenParam = some "past" then ctx.pastEvents else ctx.events)
        ∧ e.is_featured = false ∧ e.is_staff_picked = false := by
  rcases hres with hres | hres <;>
    simp [EventViewSet.get_queryset, is_search_eq_false r hsearch, hcity,
      hlook, hcur, hres, hwhat, mem_sortByLe, List.mem_filter, and_assoc] <;>
    tauto

theorem get_queryset_with_candidates (ctx : EventsCtx) (r : EventsRequest)
    (slug : String) (city : City) (e : Event) (l : List City) (c0 : City)
    (hsearch : r.search = none) (hwhat : r.what = none)
    (hcity : r.city = some slug)
    (hlook : lookupCity ctx.cities slug = some city)
    (hcur : city.is_curated = false)
    (hres : EventViewSet.get_nearest_curated_city ctx city
        ((r.radius).getD "mile-100-plus") = some l)
    (hhead : l.head? = some c0) :
    e ∈ EventViewSet.get_queryset ctx r ↔
      e ∈ (if r.whenParam = some "past" then ctx.pastEvents else ctx.events)
        ∧ ¬((e.is_featured = true ∨ e.is_staff_picked = true) ∧
            ∃ cid ∈ e.locationCityIds, ∃ c ∈ l, c.id ≠ c0.id ∧ c.id = cid) := by
  have hnil : l ≠ [] := by
    rintro rfl
    simp at hhead
  simp only [EventViewSet.get_queryset, is_search_eq_false r hsearch, hcity,
    hlook, hcur, hres, hwhat, hhead, if_neg hnil, Bool.false_eq_true, if_false]
  rw [mem_sortByLe, List.mem_filter, exclude_pred_iff]

theorem get_nearest_head_min (ctx : EventsCtx) (city : City) (radius : String)
    (d : ℚ) (l : List City) (c0 : City)
    (hrm : radiusResolverMiles radius = some d)
    (hntampa : city.slug ∉ ctx.tampaSlugs)
    (hres : EventViewSet.get_nearest_curated_city ctx city radius = some l)
    (hhead : l.head? = some c0) :
    ∀ c ∈ l, ctx.distMiles c0.point city.point ≤
      ctx.distMiles c.point city.point := by
  simp only [EventViewSet.get_nearest_curated_city, hrm] at hres
  rw [if_neg (fun h => hntampa h.2)] at hres
  obtain rfl : _ = l := Option.some.inj hres
  intro c hc
  have htot : ∀ a b : City,
      (decide (ctx.distMiles a.point city.point ≤
        ctx.distMiles b.point city.point)) = true ∨
      (decide (ctx.distMiles b.point city.point ≤
        ctx.distMiles a.point city.point)) = true := by
    intro a b
    rcases le_total (ctx.distMiles a.point city.point)
      (ctx.distMiles b.point city.point) with h | h
    · exact Or.inl (by simpa using h)
    · exact Or.inr (by simpa using h)
  have htrans : ∀ a b c : City,
      (decide (ctx.distMiles a.point city.point ≤
        ctx.distMiles b.point city.point)) = true →
      (decide (ctx.distMiles b.point city.point ≤
        ctx.distMiles c.point city.point)) = true →
      (decide (ctx.distMiles a.point city.point ≤
        ctx.distMiles c.point city.point)) = true := by
    intro a b c hab hbc
    simp only [decide_eq_true_eq] at hab hbc ⊢
    exact le_trans hab hbc
  have := sortByLe_head_le _ htot htrans _ c0 hhead c hc
  simpa using this

/-- C1: for a non-search request naming an uncurated existing city, when
the curated-city resolver yields no candidate at all (its `False` return
or an empty list), every featured or staff-picked event is excluded while
ordinary events are returned unchanged; when it yields a non-empty list,
exactly the featured/staff-picked events located in a candidate city
other than the first (nearest) candidate are excluded; and outside the
Tampa-cluster fallback the candidate list is ordered so that its head
minimizes the distance to the requested city. -/
theorem C1_uncurated_city_policy (ctx : EventsCtx) (r : EventsRequest)
    (slug : String) (city : City)
    (hsearch : r.search = none) (hwhat : r.what = none)
    (hcity : r.city = some slug)
    (hlook : lookupCity ctx.cities slug = some city)
    (hcur : city.is_curated = false) :
    (∀ e : Event,
      (EventViewSet.get_nearest_curated_city ctx city
          ((r.radius).getD "mile-100-plus") = none
        ∨ EventViewSet.get_nearest_curated_city ctx city
          ((r.radius).getD "mile-100-plus") = some []) →
      (e ∈ EventViewSet.get_queryset ctx r ↔
        e ∈ (if r.whenParam = some "past" then ctx.pastEvents else ctx.events)
          ∧ e.is_featured = false ∧ e.is_staff_picked = false))
    ∧ (∀ (e : Event) (l : List City) (c0 : City),
        EventViewSet.get_nearest_curated_city ctx city
          ((r.radius).getD "mile-100-plus") = some l →
        l.head? = some c0 →
        (e ∈ EventViewSet.get_queryset ctx r ↔
          e ∈ (if r.whenParam = some "past" then ctx.pastEvents else ctx.events)
            ∧ ¬((e.is_featured = true ∨ e.is_staff_picked = true) ∧
                ∃ cid ∈ e.locationCityIds, ∃ c ∈ l, c.id ≠ c0.id ∧ c.id = cid)))
    ∧ (∀ (d : ℚ) (l : List City) (c0 : City),
        radiusResolverMiles ((r.radius).getD "mile-100-plus") = some d →
        city.slug ∉ ctx.tampaSlugs →
        EventViewSet.get_nearest_curated_city ctx city
          ((r.radius).getD "mile-100-plus") = some l →
        l.head? = some c0 →
        ∀ c ∈ l, ctx.distMiles c0.point city.point ≤
          ctx.distMiles c.point city.point) :=
  ⟨fun e hres =>
      get_queryset_no_candidate ctx r slug city e hsearch hwhat hcity hlook
        hcur hres,
    fun e l c0 hres hh =>
      get_queryset_with_candidates ctx r slug city e l c0 hsearch hwhat hcity
        hlook hcur hres hh,
    fun d l c0 hrm hnt hres hh =>
      get_nearest_head_min ctx city _ d l c0 hrm hnt hres hh⟩

/-- C1 witness: for the uncurated city `u` at 25 miles, with no curated
city in the table, the featured event is excluded and the ordinary event
kept. -/
theorem C1_uncurated_city_policy_witness :
    (eFeat ∈ EventViewSet.get_queryset ctxC1 rC1 ↔
      eFeat ∈ (if rC1.whenParam = some "past" then ctxC1.pastEvents
          else ctxC1.events)
        ∧ eFeat.is_featured = false ∧ eFeat.is_staff_picked = false)
    ∧ (eOrd ∈ EventViewSet.get_queryset ctxC1 rC1 ↔
      eOrd ∈ (if rC1.whenParam = some "past" then ctxC1.pastEvents
          else ctxC1.events)
        ∧ eOrd.is_featured = false ∧ eOrd.is_staff_picked = false) := by
  have h := C1_uncurated_city_policy ctxC1 rC1 "u" cityU rfl rfl rfl rfl rfl
  exact ⟨h.1 eFeat (Or.inr rfl), h.1 eOrd (Or.inr rfl)⟩

/-- C10 counterexample: with the radius parameter MISSING,
`EventViewSet.get_queryset` substitutes `mile-100-plus` before calling
the resolver, which searches a 10000-mile bound and finds the curated
city — so a featured event in the uncurated requested city is NOT
excluded, contradicting the claim for missing tokens. -/
theorem C10_counterexample :
    r10.radius = none
    ∧ (lookupCity ctx10.cities "a").map City.is_curated = some false
    ∧ e10.is_featured = true
    ∧ e10 ∈ EventViewSet.get_queryset ctx10 r10 := by
  refine ⟨rfl, rfl, rfl, ?_⟩
  have h : EventViewSet.get_queryset ctx10 r10 = [e10] := rfl
  rw [h]
  exact List.mem_singleton.mpr rfl

/-- C10 (amended): the resolver recognises only the five tokens mile-5
through mile-100-plus and returns no candidate list for any other token
(in particular mile-150 through mile-350 and unrecognised strings); for
mile-100-plus it searches a 10000-mile bound; and for a request with an
EXPLICIT unhandled token on an uncurated existing city, every featured or
staff-picked event is excluded regardless of the curated cities in the
table.  (A missing radius is substituted by `mile-100-plus` in
`get_queryset`, so the unconditional exclusion does not apply to it.) -/
theorem C10_unhandled_radius :
    (∀ s : String, s ≠ "mile-5" → s ≠ "mile-25" → s ≠ "mile-50" →
      s ≠ "mile-100" → s ≠ "mile-100-plus" → radiusResolverMiles s = none)
    ∧ radiusResolverMiles "mile-100-plus" = some 10000
    ∧ (∀ (ctx : EventsCtx) (city : City) (s : String),
        radiusResolverMiles s = none →
        EventViewSet.get_nearest_curated_city ctx city s = none)
    ∧ (∀ (ctx : EventsCtx) (r : EventsRequest) (slug t : String) (city : City)
        (e : Event), r.search = none → r.what = none → r.city = some slug →
        lookupCity ctx.cities slug = some city → city.is_curated = false →
        r.radius = some t → radiusResolverMiles t = none →
        (e ∈ EventViewSet.get_queryset ctx r ↔
          e ∈ (if r.whenParam = some "past" then ctx.pastEvents
              else ctx.events)
            ∧ e.is_featured = false ∧ e.is_staff_picked = false)) := by
  refine ⟨?_, rfl, ?_, ?_⟩
  · intro s h1 h2 h3 h4 h5
    simp [radiusResolverMiles, h1, h2, h3, h4, h5]
  · intro ctx city s h
    simp [EventViewSet.get_nearest_curated_city, h]
  · intro ctx r slug t city e hs hw hc hl hcur hr hnone
    exact get_queryset_no_candidate ctx r slug city e hs hw hc hl hcur
      (Or.inl (by simp [EventViewSet.get_nearest_curated_city, hr, hnone]))

/-- C10 witness: `mile-150` is unhandled, and with it supplied explicitly
the featured event is excluded for the uncurated city `u`. -/
theorem C10_unhandled_radius_witness :
    radiusResolverMiles "mile-150" = none
    ∧ (eFeat ∈ EventViewSet.get_queryset ctxC1 r150 ↔
        eFeat ∈ (if r150.whenParam = some "past" then ctxC1.pastEvents
            else ctxC1.events)
          ∧ eFeat.is_featured = false ∧ eFeat.is_staff_picked = false) := by
  have h := C10_unhandled_radius
  have hn : radiusResolverMiles "mile-150" = none :=
    h.1 "mile-150" (by decide) (by decide) (by decide) (by decide) (by decide)
  exact ⟨hn, h.2.2.2 ctxC1 r150 "u" "mile-150" cityU eFeat rfl rfl rfl rfl rfl
    rfl hn⟩

theorem filter_ne_nil_iff {α : Type} (p : α → Bool) (l : List α) :
    l.filter p ≠ [] ↔ ∃ x ∈ l, p x = true := by
  induction l with
  | nil => simp
  | cons a as ih =>
    by_cases h : p a = true <;> simp [List.filter_cons, h, ih]

theorem insertByLe_ne_nil {α : Type} (le : α → α → Bool) (a : α) (l : List α) :
    insertByLe le a l ≠ [] := by
  cases l with
  | nil => simp [insertByLe]
  | cons b bs =>
    by_cases h : le a b = true <;> simp [insertByLe, h]

theorem sortByLe_eq_nil_iff {α : Type} (le : α → α → Bool) (l : List α) :
    sortByLe le l = [] ↔ l = [] := by
  cases l with
  | nil => simp [sortByLe]
  | cons a as => simp [sortByLe, insertByLe_ne_nil]

theorem event_filter_search_mem (ft : String → Event → Bool)
    (trig : String → String → ℚ) (value : String) (qs : List Event) (e : Event)
    (hlen : 3 ≤ value.length) :
    e ∈ EventViewSet.filter_search ft trig value qs ↔
      e ∈ qs ∧
        (if ∃ x ∈ qs, (ft value x || istartswith x.name value) = true then
          (ft value e || istartswith e.name value) = true
        else if ∃ x ∈ qs, istartswith x.name value = true then
          istartswith e.name value = true
        else if ∃ x ∈ qs, (3 / 100 : ℚ) <
            qmax (trig x.name value) (trig x.description value) then
          (3 / 100 : ℚ) < qmax (trig e.name value) (trig e.description value)
        else
          (icontains e.name value || icontains e.description value) = true) := by
  have hn : ¬ (value.length < 3) := by omega
  simp only [EventViewSet.filter_search, if_neg hn]
  by_cases h1 : ∃ x ∈ qs, (ft value x || istartswith x.name value) = true
  · rw [if_pos ((filter_ne_nil_iff _ _).mpr h1), if_pos h1]
    simp [List.mem_filter]
  · rw [if_neg (fun hc => h1 ((filter_ne_nil_iff _ _).mp hc)), if_neg h1]
    by_cases h2 : ∃ x ∈ qs, istartswith x.name value = true
    · rw [if_pos ((filter_ne_nil_iff _ _).mpr h2), if_pos h2]
      simp [List.mem_filter]
    · rw [if_neg (fun hc => h2 ((filter_ne_nil_iff _ _).mp hc)), if_neg h2]
      by_cases h3 : ∃ x ∈ qs, (3 / 100 : ℚ) <
          qmax (trig x.name value) (trig x.description value)
      · have hf : qs.filter (fun x => decide ((3 / 100 : ℚ) <
            qmax (trig x.name value) (trig x.description value))) ≠ [] := by
          rw [filter_ne_nil_iff]
          obtain ⟨x, hx, hp⟩ := h3
          exact ⟨x, hx, by simpa using hp⟩
        rw [if_pos (by rwa [ne_eq, sortByLe_eq_nil_iff]), if_pos h3]
        simp [mem_sortByLe, List.mem_filter]
      · have hf : qs.filter (fun x => decide ((3 / 100 : ℚ) <
            qmax (trig x.name value) (trig x.description value))) = [] := by
          by_contra hc
          obtain ⟨x, hx, hp⟩ := (filter_ne_nil_iff _ _).mp hc
          exact h3 ⟨x, hx, by simpa using hp⟩
        have hns : sortByLe (fun a b =>
            decide (qmax (trig b.name value) (trig b.description value) ≤
              qmax (trig a.name value) (trig a.description value)))
            (qs.filter (fun x => decide ((3 / 100 : ℚ) <
              qmax (trig x.name value) (trig x.description value)))) = [] :=
          (sortByLe_eq_nil_iff _ _).mpr hf
        rw [if_neg (fun hc => hc hns), if_neg h3]
        simp [List.mem_filter]

theorem map_filter_search_mem (ft : String → Event → Bool) (value : String)
    (qs : List Event) (e : Event) (hlen : 3 ≤ value.length) :
    e ∈ MapViewSet.filter_search ft value qs ↔
      e ∈ qs ∧
        (if ∃ x ∈ qs, (ft value x || istartswith x.name value) = true then
          (ft value e || istartswith e.name value) = true
        else if ∃ x ∈ qs, istartswith x.name value = true then
          istartswith e.name value = true
        else
          (icontains e.name value || icontains e.description value) = true) := by
  have hn : ¬ (value.length < 3) := by omega
  simp only [MapViewSet.filter_search, if_neg hn]
  by_cases h1 : ∃ x ∈ qs, (ft value x || istartswith x.name value) = true
  · rw [if_pos ((filter_ne_nil_iff _ _).mpr h1), if_pos h1]
    simp [List.mem_filter]
  · rw [if_neg (fun hc => h1 ((filter_ne_nil_iff _ _).mp hc)), if_neg h1]
    by_cases h2 : ∃ x ∈ qs, istartswith x.name value = true
    · rw [if_pos ((filter_ne_nil_iff _ _).mpr h2), if_pos h2]
      simp [List.mem_filter]
    · rw [if_neg (fun hc => h2 ((filter_ne_nil_iff _ _).mp hc)), if_neg h2]
      simp [List.mem_filter]

theorem event_filter_search_ts_sorted (ft : String → Event → Bool)
    (trig : String → String → ℚ) (value : String) (qs : List Event)
    (hlen : 3 ≤ value.length)
    (h1 : ¬ ∃ x ∈ qs, (ft value x || istartswith x.name value) = true)
    (h2 : ¬ ∃ x ∈ qs, istartswith x.name value = true)
    (h3 : ∃ x ∈ qs, (3 / 100 : ℚ) <
      qmax (trig x.name value) (trig x.description value)) :
    (EventViewSet.filter_search ft trig value qs).Pairwise
      (fun a b => qmax (trig b.name value) (trig b.description value) ≤
        qmax (trig a.name value) (trig a.description value)) := by
  have hn : ¬ (value.length < 3) := by omega
  simp only [EventViewSet.filter_search, if_neg hn]
  rw [if_neg (fun hc => h1 ((filter_ne_nil_iff _ _).mp hc)),
    if_neg (fun hc => h2 ((filter_ne_nil_iff _ _).mp hc))]
  have hf : qs.filter (fun x => decide ((3 / 100 : ℚ) <
      qmax (trig x.name value) (trig x.description value))) ≠ [] := by
    rw [filter_ne_nil_iff]
    obtain ⟨x, hx, hp⟩ := h3
    exact ⟨x, hx, by simpa using hp⟩
  rw [if_pos (by rwa [ne_eq, sortByLe_eq_nil_iff])]
  have htot : ∀ a b : Event,
      (decide (qmax (trig b.name value) (trig b.description value) ≤
        qmax (trig a.name value) (trig a.description value))) = true ∨
      (decide (qmax (trig a.name value) (trig a.description value) ≤
        qmax (trig b.name value) (trig b.description value))) = true := by
    intro a b
    rcases le_total (qmax (trig b.name value) (trig b.description value))
      (qmax (trig a.name value) (trig a.description value)) with h | h
    · exact Or.inl (by simpa using h)
    · exact Or.inr (by simpa using h)
  have htrans : ∀ a b c : Event,
      (decide (qmax (trig b.name value) (trig b.description value) ≤
        qmax (trig a.name value) (trig a.description value))) = true →
      (decide (qmax (trig c.name value) (trig c.description value) ≤
        qmax (trig b.name value) (trig b.description value))) = true →
      (decide (qmax (trig c.name value) (trig c.description value) ≤
        qmax (trig a.name value) (trig a.description value))) = true := by
    intro a b c hab hbc
    simp only [decide_eq_true_eq] at hab hbc ⊢
    exact le_trans hbc hab
  exact (pairwise_sortByLe _ htot htrans _).imp (fun h => by simpa using h)

/-- C7 counterexample: on a query matching an event only by trigram
similarity (no full-text, no prefix, no substring match),
`EventViewSet.filter_search` returns the event via its trigram step while
`MapViewSet.filter_search` — which has NO trigram step — returns empty,
so the claimed four-step chain is false for the map search. -/
theorem C7_counterexample :
    EventViewSet.filter_search (fun _ _ => false) (fun _ _ => (1 : ℚ) / 10)
      "abc" [eSrch] = [eSrch]
    ∧ MapViewSet.filter_search (fun _ _ => false) "abc" [eSrch] = [] := by
  constructor
  · have hlt : ((3 / 100 : ℚ) < qmax ((10 : ℚ)⁻¹) ((10 : ℚ)⁻¹)) := by
      norm_num [qmax]
    simp [EventViewSet.filter_search, eSrch, hlt, sortByLe, insertByLe,
      show istartswith "qqq" "abc" = false from by decide]
    decide
  · simp [MapViewSet.filter_search, eSrch,
      show istartswith "qqq" "abc" = false from by decide,
      show icontains "qqq" "abc" = false from by decide,
      show icontains "zzz" "abc" = false from by decide]

/-- C7 (amended): queries shorter than 3 characters return the empty
result in both event and map search.  `EventViewSet.filter_search`
follows the four-step fallback chain — (a) full-text-or-prefix, (b)
prefix alone, (c) trigram similarity strictly above 0.03 ordered
descending by the greatest similarity, (d) unranked substring on name or
description — first non-empty step wins.  `MapViewSet.filter_search`
omits step (c): a failed prefix search falls directly to the substring
step. -/
theorem C7_search_fallback_chain :
    (∀ (ft : String → Event → Bool) (trig : String → String → ℚ)
        (value : String) (qs : List Event), value.length < 3 →
      EventViewSet.filter_search ft trig value qs = []
        ∧ MapViewSet.filter_search ft value qs = [])
    ∧ (∀ (ft : String → Event → Bool) (trig : String → String → ℚ)
        (value : String) (qs : List Event) (e : Event), 3 ≤ value.length →
      (e ∈ EventViewSet.filter_search ft trig value qs ↔
        e ∈ qs ∧
          (if ∃ x ∈ qs, (ft value x || istartswith x.name value) = true then
            (ft value e || istartswith e.name value) = true
          else if ∃ x ∈ qs, istartswith x.name value = true then
            istartswith e.name value = true
          else if ∃ x ∈ qs, (3 / 100 : ℚ) <
              qmax (trig x.name value) (trig x.description value) then
            (3 / 100 : ℚ) < qmax (trig e.name value) (trig e.description value)
          else
            (icontains e.name value || icontains e.description value) = true)))
    ∧ (∀ (ft : String → Event → Bool) (value : String) (qs : List Event)
        (e : Event), 3 ≤ value.length →
      (e ∈ MapViewSet.filter_search ft value qs ↔
        e ∈ qs ∧
          (if ∃ x ∈ qs, (ft value x || istartswith x.name value) = true then
            (ft value e || istartswith e.name value) = true
          else if ∃ x ∈ qs, istartswith x.name value = true then
            istartswith e.name value = true
          else
            (icontains e.name value || icontains e.description value) = true)))
    ∧ (∀ (ft : String → Event → Bool) (trig : String → String → ℚ)
        (value : String) (qs : List Event), 3 ≤ value.length →
      ¬ (∃ x ∈ qs, (ft value x || istartswith x.name value) = true) →
      ¬ (∃ x ∈ qs, istartswith x.name value = true) →
      (∃ x ∈ qs, (3 / 100 : ℚ) <
        qmax (trig x.name value) (trig x.description value)) →
      (EventViewSet.filter_search ft trig value qs).Pairwise
        (fun a b => qmax (trig b.name value) (trig b.description value) ≤
          qmax (trig a.name value) (trig a.description value))) :=
  ⟨fun ft trig value qs h =>
      ⟨by simp [EventViewSet.filter_search, h],
        by simp [MapViewSet.filter_search, h]⟩,
    event_filter_search_mem, map_filter_search_mem,
    event_filter_search_ts_sorted⟩

/-- C7 witness: a two-character query returns the empty result in both
search chains. -/
theorem C7_search_fallback_chain_witness :
    EventViewSet.filter_search (fun _ _ => false) (fun _ _ => 0) "ab" [eSrch]
        = []
    ∧ MapViewSet.filter_search (fun _ _ => false) "ab" [eSrch] = [] :=
  C7_search_fallback_chain.1 (fun _ _ => false) (fun _ _ => 0) "ab" [eSrch]
    (by decide)
